import Mathlib

/-!
Verification of the multi-mode interaction controller of the
govee-artnet / dmx-lan console shell, shallowly embedded from
`src/govee_artnet_console/shell/keybindings.py`
(`KeyBindingManager.create_key_bindings`).  Pieces of the shell core and
the three mode controllers that are referenced from the key-binding
handlers but are not part of the sources under verification are modelled
from the specification; those definitions carry a doc comment starting
with `Modelled from the spec:`.
-/

namespace GoveeConsole

/-- Modelled from the spec: the console mode enum (`Normal`, `LogTail`,
`Watch`, `LogView`); exactly one mode is active at a time, so the shell
flags `in_log_tail_mode`, `in_watch_mode` and `in_log_view_mode` read
from this single enum (the shell core defining those flags is outside
the sources under verification). -/
inductive Mode
  | normal
  | logTail
  | watch
  | logView
  deriving DecidableEq, Fintype

/-- Modelled from the spec: the shell flag `in_log_tail_mode`. -/
def in_log_tail_mode : Mode → Bool
  | Mode.logTail => true
  | _ => false

/-- Modelled from the spec: the shell flag `in_watch_mode`. -/
def in_watch_mode : Mode → Bool
  | Mode.watch => true
  | _ => false

/-- Modelled from the spec: the shell flag `in_log_view_mode`. -/
def in_log_view_mode : Mode → Bool
  | Mode.logView => true
  | _ => false

/-- The key identifiers that `create_key_bindings` registers with
`kb.add(...)`, one constructor per distinct identifier string. -/
inductive Key
  | ctrlC
  | ctrlD
  | ctrlL
  | ctrlT
  | pageup
  | pagedown
  | escape
  | q
  | endKey
  | f
  | plus
  | minus
  | home
  | l
  | c
  | r
  | space
  | slash
  | question
  deriving DecidableEq, Fintype

/-- A registered key binding: the key identifier and the guard.  An
unguarded `kb.add(key)` call has the always-true guard; a
`kb.add(key, filter=Condition(...))` call has the condition as guard
(each condition reads one of the three mode flags). -/
structure Binding where
  key : Key
  guard : Mode → Bool

/-- The dispatch table built by `create_key_bindings`, in registration
order: the six basic bindings, then the log-tail-mode bindings, the
watch-mode bindings, and the log-view-mode bindings. -/
def keyBindingTable : List Binding :=
  [ ⟨Key.ctrlC, fun _ => true⟩
  , ⟨Key.ctrlD, fun _ => true⟩
  , ⟨Key.ctrlL, fun _ => true⟩
  , ⟨Key.ctrlT, fun _ => true⟩
  , ⟨Key.pageup, fun _ => true⟩
  , ⟨Key.pagedown, fun _ => true⟩
  , ⟨Key.escape, in_log_tail_mode⟩
  , ⟨Key.q, in_log_tail_mode⟩
  , ⟨Key.endKey, in_log_tail_mode⟩
  , ⟨Key.f, in_log_tail_mode⟩
  , ⟨Key.escape, in_watch_mode⟩
  , ⟨Key.q, in_watch_mode⟩
  , ⟨Key.plus, in_watch_mode⟩
  , ⟨Key.minus, in_watch_mode⟩
  , ⟨Key.escape, in_log_view_mode⟩
  , ⟨Key.q, in_log_view_mode⟩
  , ⟨Key.pageup, in_log_view_mode⟩
  , ⟨Key.pagedown, in_log_view_mode⟩
  , ⟨Key.home, in_log_view_mode⟩
  , ⟨Key.endKey, in_log_view_mode⟩
  , ⟨Key.l, in_log_view_mode⟩
  , ⟨Key.c, in_log_view_mode⟩
  , ⟨Key.r, in_log_view_mode⟩
  , ⟨Key.space, in_log_view_mode⟩
  , ⟨Key.f, in_log_view_mode⟩
  , ⟨Key.slash, in_log_view_mode⟩
  , ⟨Key.question, in_log_view_mode⟩
  ]

/-- Number of registered bindings for key `k` whose guard evaluates true
in mode `m`: the bindings eligible to fire on that keypress. -/
def matchCount (k : Key) (m : Mode) : Nat :=
  (keyBindingTable.filter (fun b => b.key == k && b.guard m)).length

/-- The shell state visible to the basic key-binding handlers: the input
buffer text, the output buffer text and scroll cursor position, the
log-tail buffer text, the session follow-tail flag, and whether
`event.app.exit` has been requested. -/
structure ShellState where
  input_text : String
  output_text : String
  cursor_position : ℤ
  log_tail_text : String
  follow_tail : Bool
  exited : Bool

/-- Modelled from the spec: the console core method `_append_output`
(the shell core is outside the sources under verification).  It appends
to the output buffer and, when `follow_tail` is set, moves the scroll
cursor to the end of the buffer. -/
def append_output (s : ShellState) (t : String) : ShellState :=
  let s2 := { s with output_text := s.output_text ++ t }
  if s2.follow_tail then
    { s2 with cursor_position := (s2.output_text.length : ℤ) }
  else s2

/-- The hint text the Ctrl+C handler prints when the input buffer is
already empty. -/
def ctrlCHint : String := "\n[yellow]Use \x27exit\x27 or Ctrl+D to quit.[/]\n"

/-- Handler for `c-c`: reset a non-empty input buffer, otherwise append
the quit hint to the output. -/
def ctrlCHandler (s : ShellState) : ShellState :=
  if s.input_text ≠ "" then
    { s with input_text := "" }
  else
    append_output s ctrlCHint

/-- Handler for `c-d`: `event.app.exit(result=True)`. -/
def ctrlDHandler (s : ShellState) : ShellState :=
  { s with exited := true }

/-- The status line the Ctrl+T handler appends after toggling, as a
function of the new value of the flag. -/
def followStatusText (b : Bool) : String :=
  "\n[dim]Follow-tail " ++ (if b then "enabled" else "disabled") ++ "[/]\n"

/-- Handler for `c-t`: toggle `follow_tail` and append a status line. -/
def ctrlTHandler (s : ShellState) : ShellState :=
  let s2 := { s with follow_tail := !s.follow_tail }
  append_output s2 (followStatusText s2.follow_tail)

/-- Handler for `pageup` (no guard): disable follow-tail and move the
cursor up by `rows * 80` characters, clamped at 0.  `rows` stands for
`event.app.output.get_size().rows - 4`. -/
def pageupHandler (rows : ℤ) (s : ShellState) : ShellState :=
  let s2 := { s with follow_tail := false }
  { s2 with cursor_position := max 0 (s2.cursor_position - rows * 80) }

/-- Handler for `pagedown` (no guard): move the cursor down by
`rows * 80` characters, clamped at the buffer length, and re-enable
follow-tail when the new cursor is within 10 characters of the end. -/
def pagedownHandler (rows : ℤ) (s : ShellState) : ShellState :=
  let s2 := { s with
    cursor_position :=
      min (s.output_text.length : ℤ) (s.cursor_position + rows * 80) }
  if s2.cursor_position ≥ (s2.output_text.length : ℤ) - 10 then
    { s2 with follow_tail := true }
  else s2

/-- The notice the log-tail-mode `f` handler inserts into the log-tail
buffer. -/
def logTailFilterNotice : String :=
  "\x1b[33m[Filter UI not yet implemented - use \x27logs tail --level LEVEL --logger LOGGER\x27 to set filters]\x1b[0m\n"

/-- Handler for `f` under the log-tail-mode guard: insert the
not-yet-implemented notice into the log-tail buffer. -/
def logTailFHandler (s : ShellState) : ShellState :=
  { s with log_tail_text := s.log_tail_text ++ logTailFilterNotice }

/-- Handler for `f` under the log-view-mode guard: the body is `pass`
(a TODO placeholder), so the state is unchanged. -/
def logViewFHandler (s : ShellState) : ShellState := s

/-- Handler for `/` under the log-view-mode guard: the body is `pass`
(a TODO placeholder), so the state is unchanged. -/
def logViewSlashHandler (s : ShellState) : ShellState := s

/-- Handler for `?` under the log-view-mode guard: the body is `pass`
(a TODO placeholder), so the state is unchanged. -/
def logViewQuestionHandler (s : ShellState) : ShellState := s

/-- The watch-mode controller state the `+`/`-` handlers read and
write.  Intervals are modelled as rationals; the source manipulates
them in exact multiples of 0.5. -/
structure WatchController where
  refresh_interval : ℚ

/-- Modelled from the spec: `WatchController.set_interval` (the
controller implementation is outside the sources under verification).
It replaces `refresh_interval` with the new value, clamped to the
specified minimum of 0.5 time-units. -/
def set_interval (w : WatchController) (newInterval : ℚ) : WatchController :=
  { w with refresh_interval := max 0.5 newInterval }

/-- Handler for `+` under the watch-mode guard: decrease the refresh
interval by 0.5, clamped below at 0.5, via `set_interval`. -/
def plusHandler (w : WatchController) : WatchController :=
  set_interval w (max 0.5 (w.refresh_interval - 0.5))

/-- Handler for `-` under the watch-mode guard: increase the refresh
interval by 0.5 via `set_interval`. -/
def minusHandler (w : WatchController) : WatchController :=
  set_interval w (w.refresh_interval + 0.5)

/-- The page-navigation targets the log-view handlers pass to
`navigate_page`. -/
inductive PageTarget
  | first
  | prev
  | next
  | last
  deriving DecidableEq

/-- The log-view controller state the page-navigation handlers read and
write: the current zero-based page and the last known page index. -/
structure LogViewController where
  page : ℕ
  last_known_page : ℕ

/-- Modelled from the spec: `LogViewController.navigate_page` (the
controller implementation is outside the sources under verification).
Targets are first, prev, next, last; `prev` at page 0 and `next` at the
last known page saturate without wraparound or error. -/
def navigate_page (lv : LogViewController) (t : PageTarget) : LogViewController :=
  match t with
  | PageTarget.first => { lv with page := 0 }
  | PageTarget.prev => { lv with page := lv.page - 1 }
  | PageTarget.next => { lv with page := min lv.last_known_page (lv.page + 1) }
  | PageTarget.last => { lv with page := lv.last_known_page }

/-- The log-level filter values: the severities plus the unfiltered
state. -/
inductive LevelFilter
  | unfiltered
  | debug
  | info
  | warning
  | error
  | critical
  deriving DecidableEq, Fintype

/-- Modelled from the spec: `LogViewController.cycle_level_filter` (the
controller implementation is outside the sources under verification).
It advances the level filter through the fixed ordered cycle of
severities plus the unfiltered state, wrapping after the last. -/
def cycle_level_filter : LevelFilter → LevelFilter
  | LevelFilter.unfiltered => LevelFilter.debug
  | LevelFilter.debug => LevelFilter.info
  | LevelFilter.info => LevelFilter.warning
  | LevelFilter.warning => LevelFilter.error
  | LevelFilter.error => LevelFilter.critical
  | LevelFilter.critical => LevelFilter.unfiltered

/-- A concrete shell state (20-character output buffer, empty input,
cursor at the top, follow-tail off) used to instantiate theorems with
hypotheses. -/
def exState : ShellState :=
  { input_text := ""
  , output_text := "0123456789abcdefghij"
  , cursor_position := 0
  , log_tail_text := ""
  , follow_tail := false
  , exited := false }

/-- A concrete log-view controller sitting at page 0 of 6 known pages. -/
def exFirstPage : LogViewController := { page := 0, last_known_page := 5 }

/-- A concrete log-view controller sitting at the last known page. -/
def exLastPage : LogViewController := { page := 5, last_known_page := 5 }

/-- A concrete watch controller with a 2.0 time-unit refresh interval. -/
def exWatch : WatchController := { refresh_interval := 2 }

/-- C1 counterexample: in log-view mode the key `pageup` has two
registered bindings whose guards are simultaneously true — the
unguarded scroll binding and the log-view previous-page binding — so
the table does register two bindings for one key with overlapping
guards, contrary to the claim. -/
theorem pageup_logView_two_matches :
    matchCount Key.pageup Mode.logView = 2 ∧
    ¬ matchCount Key.pageup Mode.logView ≤ 1 := by decide

/-- C1 (amended): for every key and mode at most one registered binding
has a true guard, except for `pageup` and `pagedown` in log-view mode,
where exactly two bindings (the unguarded one and the log-view-guarded
one) have simultaneously true guards. -/
theorem at_most_one_matching_binding_except_paging :
    ∀ k : Key, ∀ m : Mode,
      matchCount k m ≤ 1 ∨
        (m = Mode.logView ∧ (k = Key.pageup ∨ k = Key.pagedown) ∧
          matchCount k m = 2) := by decide

/-- C2: the log-tail-mode `f` handler appends the visible
not-implemented notice to the log-tail buffer, but the log-view-mode
`f`, `/` and `?` handlers are `pass` bodies that leave the whole state
unchanged, appending no notice text anywhere. -/
theorem logView_placeholder_keys_do_nothing (s : ShellState) :
    (logTailFHandler s).log_tail_text = s.log_tail_text ++ logTailFilterNotice ∧
    0 < logTailFilterNotice.length ∧
    logViewFHandler s = s ∧
    logViewSlashHandler s = s ∧
    logViewQuestionHandler s = s :=
  ⟨rfl, by decide, rfl, rfl, rfl⟩

/-- C3: after the `pagedown` action, if the resulting cursor is at
least `L - 10` (L the output buffer length) the follow-tail flag is
true, and if the resulting cursor is below `L - 10` the flag stays
false whenever it was false before. -/
theorem pagedown_follow_threshold (rows : ℤ) (s : ShellState) :
    ((pagedownHandler rows s).cursor_position ≥ (s.output_text.length : ℤ) - 10 →
      (pagedownHandler rows s).follow_tail = true) ∧
    ((pagedownHandler rows s).cursor_position < (s.output_text.length : ℤ) - 10 →
      s.follow_tail = false →
      (pagedownHandler rows s).follow_tail = false) := by
  simp only [pagedownHandler]
  split_ifs with h <;> constructor <;> intro h1 <;> (simp_all; try omega)

/-- C3 witness: on the 20-character example buffer, one page down from
the top lands within 10 characters of the end and re-enables
follow-tail, while a zero-row page down stays at the top and leaves it
disabled. -/
theorem pagedown_follow_threshold_witness :
    (pagedownHandler 1 exState).follow_tail = true ∧
    (pagedownHandler 0 exState).follow_tail = false :=
  ⟨(pagedown_follow_threshold 1 exState).1 (by decide),
   (pagedown_follow_threshold 0 exState).2 (by decide) rfl⟩

/-- C5: the `pageup` action always sets the follow-tail flag to false,
whatever its prior value and cursor position, and moves the cursor up
by `rows * 80` characters (the fixed 80-character line-width
approximation), clamped at 0. -/
theorem pageup_disables_follow_and_moves (rows : ℤ) (s : ShellState) :
    (pageupHandler rows s).follow_tail = false ∧
    (pageupHandler rows s).cursor_position =
      max 0 (s.cursor_position - rows * 80) :=
  ⟨rfl, rfl⟩

/-- C8: from any valid state (cursor within the buffer) and any
nonnegative page size, both scroll actions leave the cursor within
`[0, length of the output text]`. -/
theorem scroll_cursor_in_bounds (rows : ℤ) (s : ShellState)
    (hrows : 0 ≤ rows) (h0 : 0 ≤ s.cursor_position)
    (hL : s.cursor_position ≤ (s.output_text.length : ℤ)) :
    (0 ≤ (pageupHandler rows s).cursor_position ∧
      (pageupHandler rows s).cursor_position ≤
        ((pageupHandler rows s).output_text.length : ℤ)) ∧
    (0 ≤ (pagedownHandler rows s).cursor_position ∧
      (pagedownHandler rows s).cursor_position ≤
        ((pagedownHandler rows s).output_text.length : ℤ)) := by
  simp only [pageupHandler, pagedownHandler]
  split_ifs with h <;> refine ⟨⟨?_, ?_⟩, ?_, ?_⟩ <;> simp <;> omega

/-- C8 witness: scrolling the example state by one page in either
direction keeps the cursor inside the buffer. -/
theorem scroll_cursor_in_bounds_witness :
    (0 ≤ (pageupHandler 1 exState).cursor_position ∧
      (pageupHandler 1 exState).cursor_position ≤
        ((pageupHandler 1 exState).output_text.length : ℤ)) ∧
    (0 ≤ (pagedownHandler 1 exState).cursor_position ∧
      (pagedownHandler 1 exState).cursor_position ≤
        ((pagedownHandler 1 exState).output_text.length : ℤ)) :=
  scroll_cursor_in_bounds 1 exState (by decide) (by decide) (by decide)

/-- C9: Ctrl+C never exits the session; with a non-empty input buffer
it resets the input to empty and appends nothing to the output, and
with an empty input buffer it leaves the input unchanged and appends
the quit hint to the output. -/
theorem ctrlC_never_exits (s : ShellState) :
    (ctrlCHandler s).exited = s.exited ∧
    (s.input_text ≠ "" →
      (ctrlCHandler s).input_text = "" ∧
      (ctrlCHandler s).output_text = s.output_text) ∧
    (s.input_text = "" →
      (ctrlCHandler s).input_text = s.input_text ∧
      (ctrlCHandler s).output_text = s.output_text ++ ctrlCHint) := by
  simp only [ctrlCHandler, append_output]
  split_ifs with h h2 <;> simp_all

/-- C9 witness: Ctrl+C on the example state with pending input clears
the input without touching the output, and on the empty-input example
state appends the hint instead. -/
theorem ctrlC_never_exits_witness :
    ((ctrlCHandler { exState with input_text := "status" }).input_text = "" ∧
      (ctrlCHandler { exState with input_text := "status" }).output_text =
        ({ exState with input_text := "status" } : ShellState).output_text) ∧
    ((ctrlCHandler exState).input_text = exState.input_text ∧
      (ctrlCHandler exState).output_text = exState.output_text ++ ctrlCHint) :=
  ⟨(ctrlC_never_exits { exState with input_text := "status" }).2.1 (by decide),
   (ctrlC_never_exits exState).2.2 rfl⟩

/-- C10: Ctrl+T is an involution on the follow-tail flag — two
applications restore its original value — and each application appends
a non-empty status line to the output. -/
theorem ctrlT_involution (s : ShellState) :
    (ctrlTHandler (ctrlTHandler s)).follow_tail = s.follow_tail ∧
    (ctrlTHandler s).output_text =
      s.output_text ++ followStatusText (!s.follow_tail) ∧
    0 < (followStatusText (!s.follow_tail)).length := by
  refine ⟨?_, ?_, ?_⟩
  · cases hb : s.follow_tail <;>
      simp [ctrlTHandler, append_output, hb]
  · cases hb : s.follow_tail <;>
      simp [ctrlTHandler, append_output, hb]
  · cases hb : s.follow_tail <;> simp [hb] <;> decide

/-- C4: the watch-mode `+` action sets the refresh interval to
`max 0.5 (r - 0.5)`, so it never falls below the 0.5 floor and
`set_interval 0.1` yields an effective interval of 0.5, while the `-`
action sets it to `r + 0.5` with no upper bound. -/
theorem watch_interval_adjustment (w : WatchController)
    (h : 0 ≤ w.refresh_interval) :
    (plusHandler w).refresh_interval =
      max 0.5 (w.refresh_interval - 0.5) ∧
    (0.5 : ℚ) ≤ (plusHandler w).refresh_interval ∧
    (set_interval w (0.1 : ℚ)).refresh_interval = 0.5 ∧
    (minusHandler w).refresh_interval = w.refresh_interval + 0.5 := by
  unfold plusHandler minusHandler set_interval
  refine ⟨?_, le_max_left _ _, ?_, max_eq_right (by linarith)⟩
  · rw [← max_assoc, max_self]
  · norm_num [max_eq_left]

/-- C4 witness: from a 2.0 interval, `+` yields 1.5 (which is
`max 0.5 (2 - 0.5)`), the interval stays at or above 0.5,
`set_interval 0.1` is clamped to 0.5, and `-` yields 2.5. -/
theorem watch_interval_adjustment_witness :
    (plusHandler exWatch).refresh_interval =
      max 0.5 (exWatch.refresh_interval - 0.5) ∧
    (0.5 : ℚ) ≤ (plusHandler exWatch).refresh_interval ∧
    (set_interval exWatch (0.1 : ℚ)).refresh_interval = 0.5 ∧
    (minusHandler exWatch).refresh_interval =
      exWatch.refresh_interval + 0.5 :=
  watch_interval_adjustment exWatch (by norm_num [exWatch])

/-- C6: page navigation saturates — `prev` at page 0 leaves the page at
0, and `next` at the last known page leaves the page unchanged. -/
theorem navigate_page_saturates (lv : LogViewController) :
    (lv.page = 0 → (navigate_page lv PageTarget.prev).page = 0) ∧
    (lv.page = lv.last_known_page →
      (navigate_page lv PageTarget.next).page = lv.page) := by
  constructor
  · intro h; simp [navigate_page, h]
  · intro h; simp [navigate_page, h]

/-- C6 witness: on the concrete controllers, `prev` at page 0 of 6
stays at 0, and `next` at the last page (5 of 5) stays at 5. -/
theorem navigate_page_saturates_witness :
    (navigate_page exFirstPage PageTarget.prev).page = 0 ∧
    (navigate_page exLastPage PageTarget.next).page = exLastPage.page :=
  ⟨(navigate_page_saturates exFirstPage).1 rfl,
   (navigate_page_saturates exLastPage).2 rfl⟩

/-- C7: the level-filter cycle has six states (five severities plus
unfiltered), and applying `cycle_level_filter` exactly that many times
returns every starting filter value to itself. -/
theorem cycle_level_filter_period :
    Fintype.card LevelFilter = 6 ∧
    ∀ x : LevelFilter, cycle_level_filter^[6] x = x := by
  constructor
  · rfl
  · decide

end GoveeConsole
